import Mathlib

/-!
Shallow embedding of `src/stm32/COLDCARD_MK4/psramdisk.c` (a RAM disk in
PSRAM, exposed both as a USB mass-storage device and as a MicroPython
block device), together with theorems settling the specification claims.

Modelling conventions:
* The backing memory (`PSRAM_BASE[0 .. BLOCK_COUNT*BLOCK_SIZE)`) is a
  function `Nat → Nat` from byte offset to byte value; a pointer returned
  by `block_to_ptr` is the byte offset from `PSRAM_BASE` (`none` models a
  NULL return).
* C unsigned arithmetic is `Nat` with an explicit `% 2^w` wherever the C
  expression can actually exceed the width of its type; where a value is
  provably below the width no reduction is written (noted locally).
* `int8_t`/`int` return codes are `Int` (0 = success, negative = error).
* Calls into external libraries (oofatfs, the MicroPython runtime) are out
  of scope; their results enter the model as explicit parameters.
-/

namespace Psramdisk

/-- PSRAM_SIZE, line 26 of psramdisk.c: 8 MiB. -/
def PSRAM_SIZE : Nat := 0x800000

/-- BLOCK_SIZE, line 27 of psramdisk.c. -/
def BLOCK_SIZE : Nat := 512

/-- BLOCK_COUNT, line 28 of psramdisk.c (= PSRAM_SIZE / BLOCK_SIZE). -/
def BLOCK_COUNT : Nat := 16384

/-- Backing memory: byte value at each offset from PSRAM_BASE. -/
def Mem : Type := Nat → Nat

/-- block_to_ptr (lines 47-56): range validator for both client paths.
`blk` is a `uint32_t`, `num_blk` a `uint16_t`; `num_blk*BLOCK_SIZE` is at
most 65535*512 < 2^32 and after the first check `blk ≤ 16383`, so neither
C expression wraps and plain `Nat` arithmetic is exact.  Returns the byte
offset `blk * BLOCK_SIZE` (the C code returns `&PSRAM_BASE[blk*BLOCK_SIZE]`),
or `none` for NULL. -/
def block_to_ptr (blk : Nat) (num_blk : Nat) : Option Nat :=
  if blk ≥ BLOCK_COUNT then none
  else if blk + num_blk * BLOCK_SIZE ≥ BLOCK_COUNT then none
  else some (blk * BLOCK_SIZE)

/-- psram_msc_lu_num (line 58): number of logical units. -/
def psram_msc_lu_num : Nat := 1

/-- FLAGS_STARTED (line 34). -/
def FLAGS_STARTED : Nat := 0x01

/-- FLAGS_READONLY (line 36). -/
def FLAGS_READONLY : Nat := 0x02

/-- lu_flag_set (lines 61-63): `psram_msc_lu_flags |= flag << (lun*2)`.
The flags word is a `uint16_t`, hence the `% 65536` on assignment. -/
def lu_flag_set (flags : Nat) (lun : Nat) (flag : Nat) : Nat :=
  (flags ||| (flag <<< (lun * 2))) % 65536

/-- lu_flag_clr (lines 65-67): `psram_msc_lu_flags &= ~(flag << (lun*2))`.
For `flags < 2^16` the C int-width complement-and-mask equals masking with
the 16-bit complement, written here as XOR against 0xFFFF. -/
def lu_flag_clr (flags : Nat) (lun : Nat) (flag : Nat) : Nat :=
  flags &&& (65535 ^^^ ((flag <<< (lun * 2)) % 65536))

/-- lu_flag_is_set (lines 69-71): `psram_msc_lu_flags & (flag << (lun*2))`
converted to bool. -/
def lu_flag_is_set (flags : Nat) (lun : Nat) (flag : Nat) : Bool :=
  flags &&& (flag <<< (lun * 2)) != 0

/-- psram_msc_Init (lines 122-130).  Takes and returns the shared flags
word; the `int8_t` return code is the first component.  Note the C code
returns 0 (not an error) for `lun_in != 0`, without touching the flags. -/
def psram_msc_Init (lun_in : Nat) (flags : Nat) : Int × Nat :=
  if lun_in ≠ 0 then (0, flags)
  else (0, lu_flag_clr (lu_flag_set flags 0 FLAGS_STARTED) 0 FLAGS_READONLY)

/-- psram_msc_IsReady (lines 175-182): 0 iff FLAGS_STARTED is set for the
unit, -1 otherwise (and -1 for `lun >= psram_msc_lu_num`). -/
def psram_msc_IsReady (lun : Nat) (flags : Nat) : Int :=
  if lun ≥ psram_msc_lu_num then -1
  else if lu_flag_is_set flags lun FLAGS_STARTED then 0 else -1

/-- psram_msc_IsWriteProtected (lines 185-190). -/
def psram_msc_IsWriteProtected (lun : Nat) (flags : Nat) : Int :=
  if lun ≥ psram_msc_lu_num then -1
  else if lu_flag_is_set flags lun FLAGS_READONLY then 1 else 0

/-- psram_msc_StartStopUnit (lines 193-204).  `started` is the C
`uint8_t` truth test `if (started)`. -/
def psram_msc_StartStopUnit (lun : Nat) (started : Bool) (flags : Nat) :
    Int × Nat :=
  if lun ≥ psram_msc_lu_num then (-1, flags)
  else if started then (0, lu_flag_set flags lun FLAGS_STARTED)
  else (0, lu_flag_clr flags lun FLAGS_STARTED)

/-- psram_msc_PreventAllowMediumRemoval (lines 207-210): prints and
returns 0 for every `lun` and `param`; never reads or writes the flags. -/
def psram_msc_PreventAllowMediumRemoval (lun : Nat) (param : Nat) : Int :=
  0

/-- STANDARD_INQUIRY_DATA_LEN, from the USB MSC middleware headers
(usbd_msc_scsi.h, outside this repository): 36. -/
def STANDARD_INQUIRY_DATA_LEN : Nat := 36

/-- psram_msc_vpd00 (lines 91-98): the supported-VPD-pages payload. -/
def psram_msc_vpd00 : List Nat := [0x00, 0x00, 0x00, 2, 0x00, 0x83]

/-- psram_msc_vpd83 (lines 100-104): the device-identification payload
with zero page length (empty identifier). -/
def psram_msc_vpd83 : List Nat := [0x00, 0x83, 0x00, 0x00]

/-- psram_msc_inquiry_data (lines 106-119): the fixed 36-byte standard
inquiry payload; byte 1 = 0x80 marks a removable drive, and bytes 8..35
are the ASCII codes of "Coinkite", "COLDCARD        " and "4.00". -/
def psram_msc_inquiry_data : List Nat :=
  [0x00, 0x80, 0x02, 0x02, STANDARD_INQUIRY_DATA_LEN - 5, 0x00, 0x00, 0x00,
   0x43, 0x6F, 0x69, 0x6E, 0x6B, 0x69, 0x74, 0x65,
   0x43, 0x4F, 0x4C, 0x44, 0x43, 0x41, 0x52, 0x44,
   0x20, 0x20, 0x20, 0x20, 0x20, 0x20, 0x20, 0x20,
   0x34, 0x2E, 0x30, 0x30]

/-- psram_msc_Inquiry (lines 133-163).  `params` are the SCSI CDB bytes
of the request (each < 256).  `Except.error` models the -1 return;
`Except.ok bytes` models the bytes copied to `data_out` (the C return
value is their count).  The C switch on the page code becomes an
if-chain.  Note `alloc_len` is declared `uint8_t`, so the 16-bit
expression `params[3] << 8 | params[4]` is reduced `% 256` on
assignment. -/
def psram_msc_Inquiry (lun : Nat) (params : Nat → Nat) :
    Except Unit (List Nat) :=
  if (params 1) &&& 1 ≠ 0 then
    if params 2 = 0x00 then .ok psram_msc_vpd00
    else if params 2 = 0x83 then .ok psram_msc_vpd83
    else .error ()
  else if lun ≥ psram_msc_lu_num then .error ()
  else .ok (psram_msc_inquiry_data.take
    (min STANDARD_INQUIRY_DATA_LEN (((params 3 <<< 8) ||| params 4) % 256)))

/-- psram_msc_GetCapacity (lines 166-172): always stores the fixed
geometry `(*block_num, *block_size) = (BLOCK_COUNT, BLOCK_SIZE)`. -/
def psram_msc_GetCapacity : Nat × Nat :=
  (BLOCK_COUNT, BLOCK_SIZE)

/-- psram_msc_Read (lines 213-224): on success the caller buffer receives
the `blk_len*BLOCK_SIZE` bytes starting at the resolved offset; `none`
models the -1 error return (no copy performed). -/
def psram_msc_Read (lun : Nat) (blk_addr : Nat) (blk_len : Nat)
    (mem : Mem) : Option (List Nat) :=
  if lun ≥ psram_msc_lu_num then none
  else match block_to_ptr blk_addr blk_len with
    | none => none
    | some off => some ((List.range (blk_len * BLOCK_SIZE)).map
        (fun j => mem (off + j)))

/-- psram_msc_Write (lines 227-238): on success the region bytes
`[off, off + blk_len*BLOCK_SIZE)` are overwritten from the caller buffer
`buf`; the `int8_t` return code is the first component and the updated
memory the second (unchanged on the -1 error paths). -/
def psram_msc_Write (lun : Nat) (buf : Nat → Nat) (blk_addr : Nat)
    (blk_len : Nat) (mem : Mem) : Int × Mem :=
  if lun ≥ psram_msc_lu_num then (-1, mem)
  else match block_to_ptr blk_addr blk_len with
    | none => (-1, mem)
    | some off =>
        (0, fun i => if off ≤ i ∧ i < off + blk_len * BLOCK_SIZE
                     then buf (i - off) else mem i)

/-- psram_msc_GetMaxLun (lines 241-243). -/
def psram_msc_GetMaxLun : Int :=
  psram_msc_lu_num - 1

/-- MicroPython object results that the block-device entry points return:
`MP_OBJ_NEW_SMALL_INT n` or `mp_const_none`. -/
inductive MpObj where
  | smallInt (n : Int)
  | const_none
deriving DecidableEq

/-- The `MP_BLOCKDEV_IOCTL_*` operation codes dispatched by psram_ioctl
(lines 367-393); the numeric values live in MicroPython's `extmod/vfs.h`,
outside this repository, so the codes are modelled symbolically, with
`OTHER` standing for every unrecognized code. -/
inductive IoctlCmd where
  | INIT
  | DEINIT
  | SYNC
  | BLOCK_COUNT_CMD
  | BLOCK_SIZE_CMD
  | BLOCK_ERASE
  | OTHER
deriving DecidableEq

/-- psram_ioctl (lines 363-394).  `arg` is the erase block number after
MicroPython's int conversion (a `uint32_t` once passed to block_to_ptr).
Returns the mp_obj result and the (possibly updated) memory. -/
def psram_ioctl (cmd : IoctlCmd) (arg : Nat) (mem : Mem) : MpObj × Mem :=
  match cmd with
  | .INIT => (.smallInt 0, mem)
  | .DEINIT => (.smallInt 0, mem)
  | .SYNC => (.smallInt 0, mem)
  | .BLOCK_COUNT_CMD => (.smallInt (Int.ofNat BLOCK_COUNT), mem)
  | .BLOCK_SIZE_CMD => (.smallInt (Int.ofNat BLOCK_SIZE), mem)
  | .BLOCK_ERASE =>
      match block_to_ptr arg 1 with
      | none => (.const_none, mem)
      | some off =>
          (.smallInt 0,
           fun i => if off ≤ i ∧ i < off + BLOCK_SIZE then 0xFF else mem i)
  | .OTHER => (.const_none, mem)

/-- psram_readblocks (lines 296-317).  `buf_len` is `bufinfo.len`
(a `size_t`); `blk_len = bufinfo.len / BLOCK_SIZE` is stored in a
`uint16_t`, hence the `% 65536`; the comparison `blk_len*BLOCK_SIZE !=
bufinfo.len` is then done at `size_t` width without wrapping
(65535*512 < 2^32).  `none` models the raised ValueError (`goto fail`);
on success the caller buffer receives the resolved bytes. -/
def psram_readblocks (block_num : Nat) (buf_len : Nat) (mem : Mem) :
    Option (List Nat) :=
  if (buf_len / BLOCK_SIZE) % 65536 < 1 then none
  else if ((buf_len / BLOCK_SIZE) % 65536) * BLOCK_SIZE ≠ buf_len then none
  else match block_to_ptr block_num ((buf_len / BLOCK_SIZE) % 65536) with
    | none => none
    | some off => some ((List.range buf_len).map (fun j => mem (off + j)))

/-- psram_writeblocks (lines 320-342), symmetric to psram_readblocks:
`none` models the raised ValueError and leaves the memory untouched;
`some mem2` is the updated region after `memcpy(ptr, bufinfo.buf, len)`. -/
def psram_writeblocks (block_num : Nat) (buf_len : Nat) (buf : Nat → Nat)
    (mem : Mem) : Option Mem :=
  if (buf_len / BLOCK_SIZE) % 65536 < 1 then none
  else if ((buf_len / BLOCK_SIZE) % 65536) * BLOCK_SIZE ≠ buf_len then none
  else match block_to_ptr block_num ((buf_len / BLOCK_SIZE) % 65536) with
    | none => none
    | some off =>
        some (fun i => if off ≤ i ∧ i < off + buf_len
                       then buf (i - off) else mem i)

/-- direct_psram_read_blocks (lines 344-352): raw byte-pointer variant;
returns `-MP_EIO` (a negative I/O error) or 0 with the copied bytes.
`MP_EIO = 5` in MicroPython's mperrno.h. -/
def direct_psram_read_blocks (block_num : Nat) (num_blocks : Nat)
    (mem : Mem) : Int × List Nat :=
  match block_to_ptr block_num num_blocks with
  | none => (-5, [])
  | some off => (0, (List.range (num_blocks * BLOCK_SIZE)).map
      (fun j => mem (off + j)))

/-- direct_psram_write_blocks (lines 353-361). -/
def direct_psram_write_blocks (src : Nat → Nat) (block_num : Nat)
    (num_blocks : Nat) (mem : Mem) : Int × Mem :=
  match block_to_ptr block_num num_blocks with
  | none => (-5, mem)
  | some off =>
      (0, fun i => if off ≤ i ∧ i < off + num_blocks * BLOCK_SIZE
                   then src (i - off) else mem i)

/-! ### FormatAndSeed (psram_wipe_and_setup, lines 414-466) -/

/-- FatFs `FR_OK` result code (the only result value the wipe routine
inspects); any other `Nat` is a failure code. -/
def FR_OK : Nat := 0

/-- Uppercase hexadecimal digit, as produced by printf's `%X`. -/
def hexDigit (n : Nat) : Char :=
  if n < 10 then Char.ofNat (48 + n) else Char.ofNat (55 + n)

/-- The characters printf's `%02X` produces for a value `n < 4096`:
two digits zero-padded, or three digits when `n ≥ 256`.  The wipe routine
only ever passes byte values or sums of two bytes (< 511). -/
def hex02 (n : Nat) : List Char :=
  if n < 256 then [hexDigit (n / 16), hexDigit (n % 16)]
  else [hexDigit ((n / 256) % 16), hexDigit ((n / 16) % 16), hexDigit (n % 16)]

/-- The hex characters of the ident (lines 448-450): printf fields
`id[11], id[10]+id[2], id[9], id[8]+id[0], id[7], id[6]` under `%02X`,
where `id` is the 12-byte hardware unique ID (each byte < 256, so each
sum < 511; the `+` is C int addition, no wrap). -/
def serialChars (id : Nat → Nat) : List Char :=
  hex02 (id 11) ++ hex02 (id 10 + id 2) ++ hex02 (id 9) ++
  hex02 (id 8 + id 0) ++ hex02 (id 7) ++ hex02 (id 6)

/-- The filename built by the snprintf on lines 448-450:
`ckcc-<hex chars>.txt` (at most 27 characters, so the 80-byte buffer never
truncates). -/
def identFileName (id : Nat → Nat) : List Char :=
  "ckcc-".data ++ serialChars id ++ ".txt".data

/-- The 12 bytes written to both ident files: `f_write(&fp, fname+5, 12, &n)`
writes the 12 characters of `fname` starting after `ckcc-`. -/
def identContent (id : Nat → Nat) : List Char :=
  (serialChars id ++ ".txt".data).take 12

/-- Results of the FatFs calls made by psram_wipe_and_setup, in call
order.  These come from the external oofatfs library; each field carries
that call's `FRESULT` (f_write results stand for the whole
open/write/close group of its file). -/
structure FsOps where
  mkfs_res : Nat
  setlabel_res : Nat
  open1_res : Nat
  write1_res : Nat
  close1_res : Nat
  open2_res : Nat
  write2_res : Nat
  close2_res : Nat

/-- Outcome of psram_wipe_and_setup: `ok = false` models the raised
ValueError (`goto fail`); `files` lists the `(name, bytes)` writes the
routine issued, in order. -/
structure WipeResult where
  ok : Bool
  files : List (List Char × List Char)

/-- psram_wipe_and_setup (lines 414-466).  The routine wipes the region
to 0x21, runs f_mkfs, sets the label, then creates the two ident files.
Faithful to the source: only `f_mkfs`'s result is tested (line 432); the
results of `f_setlabel`, `f_open`, `f_write` and `f_close` are discarded,
so none of the other `FsOps` fields influence the outcome. -/
def psram_wipe_and_setup (id : Nat → Nat) (fs : FsOps) : WipeResult :=
  if fs.mkfs_res ≠ FR_OK then ⟨false, []⟩
  else ⟨true, [(identFileName id, identContent id),
               ("serial.txt".data, identContent id)]⟩

/-! ### ClusterRangeResolver (clst2sect and psram_mmap_file, lines 470-544) -/

/-- clst2sect (lines 470-478), copied in the source from oofatfs ff.c.
All quantities are `DWORD` (uint32), so subtraction, multiplication and
addition reduce mod 2^32; returns 0 for an invalid cluster number,
otherwise the first sector of the cluster. -/
def clst2sect (n_fatent : Nat) (csize : Nat) (database : Nat)
    (clst : Nat) : Nat :=
  let c := (clst + 4294967296 - 2) % 4294967296
  if c ≥ (n_fatent + 4294967296 - 2) % 4294967296 then 0
  else (database + csize * c) % 4294967296

/-- The (run_length, sector) pairs the loop on lines 526-538 computes and
prints from the link map: `mapping 0` is the slot count filled in by
f_lseek(CREATE_LINKMAP), `num_used = (mapping[0]-1)/2`, and pair `i`
reads run length `mapping (1+2*i)` and start cluster `mapping (2+2*i)`,
converting the latter through clst2sect. -/
def mmapRanges (n_fatent : Nat) (csize : Nat) (database : Nat)
    (mapping : Nat → Nat) : List (Nat × Nat) :=
  (List.range ((mapping 0 - 1) / 2)).map
    (fun i => (mapping (1 + 2 * i),
               clst2sect n_fatent csize database (mapping (2 + 2 * i))))

/-- psram_mmap_file (lines 481-544).  External results enter as
parameters: `mount_res`, `open_res`, `lseek_res` are the FRESULTs of
f_mount, f_open and f_lseek(CREATE_LINKMAP), and `mapping` is the DWORD
array after the lseek call.  An `Except.error` is a raised ValueError
with that message.  Faithful to the source: on the success path the loop
only prints the converted ranges and the function returns
`mp_const_none`, so the return value never carries the ranges. -/
def psram_mmap_file (mount_res : Nat) (open_res : Nat) (lseek_res : Nat)
    (n_fatent : Nat) (csize : Nat) (database : Nat) (mapping : Nat → Nat) :
    Except (List Char) MpObj :=
  if mount_res ≠ FR_OK then .error "unmounted".data
  else if open_res ≠ FR_OK then .error "open file".data
  else if lseek_res ≠ FR_OK then .error "lseek".data
  else .ok .const_none

/-- A sample link map: slot 0 says 3 slots are used, so there is one
(run_length, start_cluster) pair, namely (1, 2): a single run of one
cluster starting at cluster 2, the first data cluster. -/
def mmapExample : Nat → Nat :=
  fun i => if i = 0 then 3 else if i = 1 then 1 else if i = 2 then 2 else 0

/-- INQUIRY CDB bytes with EVPD clear and allocation-length field
(bytes 3-4, big-endian) equal to 0x0100 = 256. -/
def inquiryParams256 : Nat → Nat :=
  fun i => if i = 3 then 1 else 0

/-! ### The SCSI event model for the flags word

The shared `psram_msc_lu_flags` word is only written by psram_msc_Init
and psram_msc_StartStopUnit; the query handlers read it.  A trace of
handler invocations is a list of events folded over the flags word. -/

/-- One invocation of a logical-unit-state handler. -/
inductive MscEvent where
  | evInit (lun : Nat)
  | evStartStop (lun : Nat) (started : Bool)
  | evIsReady (lun : Nat)
  | evIsWriteProtected (lun : Nat)
  | evPreventAllow (lun : Nat) (param : Nat)
deriving DecidableEq

/-- Flags word after one handler invocation: only Init and StartStopUnit
assign to `psram_msc_lu_flags`; the query handlers leave it unchanged. -/
def mscStep (flags : Nat) : MscEvent → Nat
  | .evInit lun => (psram_msc_Init lun flags).2
  | .evStartStop lun b => (psram_msc_StartStopUnit lun b flags).2
  | .evIsReady _ => flags
  | .evIsWriteProtected _ => flags
  | .evPreventAllow _ _ => flags

/-- Flags word after a trace of handler invocations. -/
def mscRun (flags : Nat) (tr : List MscEvent) : Nat :=
  tr.foldl mscStep flags

/-- Events that start unit 0: `init(0)` and `set_started(0, true)`. -/
def startsUnit0 : MscEvent → Bool
  | .evInit 0 => true
  | .evStartStop 0 true => true
  | _ => false

/-! ### Bit-0 helper lemmas for the flags word -/

/-- AND with an even mask clears bit 0. -/
theorem and_mod_two_of_even (a b : Nat) (hb : b % 2 = 0) :
    (a &&& b) % 2 = 0 := by
  rw [← Nat.and_one_is_mod (a &&& b), Nat.and_assoc, Nat.and_one_is_mod b,
    hb, Nat.and_zero]

/-- AND with an odd mask preserves bit 0. -/
theorem and_mod_two_of_odd (a b : Nat) (hb : b % 2 = 1) :
    (a &&& b) % 2 = a % 2 := by
  rw [← Nat.and_one_is_mod (a &&& b), Nat.and_assoc, Nat.and_one_is_mod b,
    hb, Nat.and_one_is_mod]

/-- OR with 1 sets bit 0. -/
theorem or_one_mod_two (a : Nat) : (a ||| 1) % 2 = 1 := by
  have h1 : Nat.testBit 1 0 = true := by decide
  have h : (a ||| 1).testBit 0 = true := by
    rw [Nat.testBit_or, h1, Bool.or_true]
  rw [Nat.testBit_zero] at h
  exact of_decide_eq_true h

/-- Setting FLAGS_STARTED for unit 0 sets bit 0 of the flags word. -/
theorem set_started_mod_two (f : Nat) :
    (lu_flag_set f 0 FLAGS_STARTED) % 2 = 1 := by
  unfold lu_flag_set
  rw [Nat.mod_mod_of_dvd _ (by norm_num : (2 : Nat) ∣ 65536)]
  have h : FLAGS_STARTED <<< (0 * 2) = 1 := by decide
  rw [h]
  exact or_one_mod_two f

/-- Clearing FLAGS_STARTED for unit 0 clears bit 0 of the flags word. -/
theorem clr_started_mod_two (f : Nat) :
    (lu_flag_clr f 0 FLAGS_STARTED) % 2 = 0 := by
  have h : (65535 : Nat) ^^^ ((FLAGS_STARTED <<< (0 * 2)) % 65536) = 65534 := by
    decide
  unfold lu_flag_clr
  rw [h]
  exact and_mod_two_of_even f 65534 (by decide)

/-- Clearing FLAGS_READONLY for unit 0 leaves bit 0 unchanged. -/
theorem clr_readonly_mod_two (f : Nat) :
    (lu_flag_clr f 0 FLAGS_READONLY) % 2 = f % 2 := by
  have h : (65535 : Nat) ^^^ ((FLAGS_READONLY <<< (0 * 2)) % 65536) = 65533 := by
    decide
  unfold lu_flag_clr
  rw [h]
  exact and_mod_two_of_odd f 65533 (by decide)

/-- psram_msc_IsReady for unit 0 depends only on bit 0 of the flags. -/
theorem isReady_zero_char (f : Nat) :
    psram_msc_IsReady 0 f = if f % 2 = 1 then 0 else -1 := by
  unfold psram_msc_IsReady lu_flag_is_set
  rw [if_neg (by decide : ¬ ((0 : Nat) ≥ psram_msc_lu_num))]
  have h : FLAGS_STARTED <<< (0 * 2) = 1 := by decide
  rw [h, Nat.and_one_is_mod]
  rcases Nat.mod_two_eq_zero_or_one f with hf | hf <;> simp [hf]

/-- Any event that does not start unit 0 keeps bit 0 of the flags clear. -/
theorem step_preserves_stopped (f : Nat) (e : MscEvent)
    (he : startsUnit0 e = false) (hf : f % 2 = 0) :
    (mscStep f e) % 2 = 0 := by
  cases e with
  | evInit lun =>
      cases lun with
      | zero => exact absurd he (by decide)
      | succ k =>
          show (psram_msc_Init (k + 1) f).2 % 2 = 0
          unfold psram_msc_Init
          rw [if_pos (by omega : k + 1 ≠ 0)]
          exact hf
  | evStartStop lun b =>
      cases lun with
      | zero =>
          cases b with
          | true => exact absurd he (by decide)
          | false =>
              show (psram_msc_StartStopUnit 0 false f).2 % 2 = 0
              unfold psram_msc_StartStopUnit
              rw [if_neg (by decide : ¬ ((0 : Nat) ≥ psram_msc_lu_num))]
              exact clr_started_mod_two f
      | succ k =>
          show (psram_msc_StartStopUnit (k + 1) b f).2 % 2 = 0
          unfold psram_msc_StartStopUnit
          rw [if_pos (by unfold psram_msc_lu_num; omega :
            k + 1 ≥ psram_msc_lu_num)]
          exact hf
  | evIsReady lun => exact hf
  | evIsWriteProtected lun => exact hf
  | evPreventAllow lun param => exact hf

/-- A trace with no unit-0 start event keeps bit 0 of the flags clear. -/
theorem run_preserves_stopped (f : Nat) (tr : List MscEvent)
    (htr : ∀ e ∈ tr, startsUnit0 e = false) (hf : f % 2 = 0) :
    (mscRun f tr) % 2 = 0 := by
  induction tr generalizing f with
  | nil => exact hf
  | cons e tl ih =>
      exact ih (mscStep f e)
        (fun x hx => htr x (List.mem_cons_of_mem e hx))
        (step_preserves_stopped f e (htr e (List.mem_cons_self e tl)) hf)

/-! ### Helper lemmas about the ident string -/

/-- `%02X` always produces at least two characters. -/
theorem hex02_length_ge (n : Nat) : 2 ≤ (hex02 n).length := by
  unfold hex02
  split_ifs <;> simp

/-- The six `%02X` fields of the ident give at least 12 characters. -/
theorem serialChars_length_ge (id : Nat → Nat) :
    12 ≤ (serialChars id).length := by
  unfold serialChars
  have h11 := hex02_length_ge (id 11)
  have h10 := hex02_length_ge (id 10 + id 2)
  have h9 := hex02_length_ge (id 9)
  have h8 := hex02_length_ge (id 8 + id 0)
  have h7 := hex02_length_ge (id 7)
  have h6 := hex02_length_ge (id 6)
  simp only [List.length_append]
  omega

/-- The 12 bytes written to the ident files are the first 12 hex
characters of the serial. -/
theorem identContent_eq_take (id : Nat → Nat) :
    identContent id = (serialChars id).take 12 := by
  unfold identContent
  exact List.take_append_of_le_length (serialChars_length_ge id)

/-! ## Claim theorems -/

/-- C1: block_to_ptr accepts (blk, num_blk) iff `blk < BLOCK_COUNT` and
`blk + num_blk*BLOCK_SIZE < BLOCK_COUNT`; every accepted request resolves
to the byte span `[blk*BLOCK_SIZE, blk*BLOCK_SIZE + num_blk*BLOCK_SIZE)`,
which lies inside `[0, BLOCK_COUNT*BLOCK_SIZE)`; every rejected request
makes the SCSI read and write paths fail with -1 and leave the memory
untouched. -/
theorem C1_block_to_ptr_validator (blk num_blk : Nat) :
    ((block_to_ptr blk num_blk).isSome ↔
      blk < BLOCK_COUNT ∧ blk + num_blk * BLOCK_SIZE < BLOCK_COUNT)
    ∧ (∀ off, block_to_ptr blk num_blk = some off →
        off = blk * BLOCK_SIZE ∧
        off + num_blk * BLOCK_SIZE ≤ BLOCK_COUNT * BLOCK_SIZE)
    ∧ (block_to_ptr blk num_blk = none →
        ∀ lun buf mem,
          psram_msc_Write lun buf blk num_blk mem = (-1, mem)
          ∧ psram_msc_Read lun blk num_blk mem = none) := by
  refine ⟨?_, ?_, ?_⟩
  · unfold block_to_ptr
    split_ifs with h1 h2 <;> simp <;> omega
  · intro off h
    unfold block_to_ptr at h
    split_ifs at h with h1 h2
    have hoff : off = blk * BLOCK_SIZE := by
      have := Option.some.inj h
      omega
    constructor
    · exact hoff
    · subst hoff
      unfold BLOCK_SIZE BLOCK_COUNT at h1 h2 ⊢
      omega
  · intro hn lun buf mem
    constructor
    · unfold psram_msc_Write
      split_ifs with h1
      · rfl
      · rw [hn]
    · unfold psram_msc_Read
      split_ifs with h1
      · rfl
      · rw [hn]

/-- C1 witness: the accepted request (0, 1) resolves to offset 0 inside
the region; the rejected request (16000, 1) makes read and write fail
without touching memory. -/
theorem C1_witness :
    ((0 : Nat) = 0 * BLOCK_SIZE ∧
      0 + 1 * BLOCK_SIZE ≤ BLOCK_COUNT * BLOCK_SIZE)
    ∧ (psram_msc_Write 0 (fun _ => 0) 16000 1 (fun _ => 0) =
        (-1, fun _ => 0)
       ∧ psram_msc_Read 0 16000 1 (fun _ => 0) = none) :=
  ⟨(C1_block_to_ptr_validator 0 1).2.1 0 (by decide),
   (C1_block_to_ptr_validator 16000 1).2.2 (by decide) 0 (fun _ => 0)
     (fun _ => 0)⟩

/-- C2: for every block range accepted by block_to_ptr and every data
pattern P, a SCSI write of P to that range followed by a SCSI read of the
same range returns exactly the `num_blk*BLOCK_SIZE` bytes of P. -/
theorem C2_write_read_roundtrip (blk num_blk off : Nat) (P : Nat → Nat)
    (mem : Mem) (h : block_to_ptr blk num_blk = some off) :
    psram_msc_Read 0 blk num_blk
        ((psram_msc_Write 0 P blk num_blk mem).2) =
      some ((List.range (num_blk * BLOCK_SIZE)).map P) := by
  have h0 : ¬ ((0 : Nat) ≥ psram_msc_lu_num) := by decide
  unfold psram_msc_Write psram_msc_Read
  rw [if_neg h0, if_neg h0, h]
  simp only [Option.some.injEq]
  apply List.map_congr_left
  intro j hj
  rw [List.mem_range] at hj
  rw [if_pos (by omega : off ≤ off + j ∧ off + j < off + num_blk * BLOCK_SIZE)]
  congr 1
  omega

/-- C2 witness: writing the pattern `j ↦ (j+7) % 256` to blocks 3..4 and
reading blocks 3..4 back returns that pattern. -/
theorem C2_witness :
    psram_msc_Read 0 3 2
        ((psram_msc_Write 0 (fun j => (j + 7) % 256) 3 2 (fun _ => 0)).2) =
      some ((List.range (2 * BLOCK_SIZE)).map (fun j => (j + 7) % 256)) :=
  C2_write_read_roundtrip 3 2 (3 * BLOCK_SIZE) (fun j => (j + 7) % 256)
    (fun _ => 0) (by decide)

/-- C3: with `num_blk ≥ 1` the validator accepts only if
`blk + num_blk*BLOCK_SIZE < BLOCK_COUNT`, so at most 31 blocks can ever be
transferred; every single-block read, write or erase of a block index in
15872..16383 is rejected (fails / leaves memory untouched); yet the
advertised capacity is the full 16384 blocks of 512 bytes, both over SCSI
GetCapacity and over the ioctl path. -/
theorem C3_transfer_cap_and_unreachable_tail :
    (∀ blk num_blk, 1 ≤ num_blk → (block_to_ptr blk num_blk).isSome →
        blk + num_blk * BLOCK_SIZE < BLOCK_COUNT ∧ num_blk ≤ 31)
    ∧ (∀ blk, 15872 ≤ blk →
        block_to_ptr blk 1 = none
        ∧ (∀ lun mem, psram_msc_Read lun blk 1 mem = none)
        ∧ (∀ lun buf mem, psram_msc_Write lun buf blk 1 mem = (-1, mem))
        ∧ (∀ mem, psram_ioctl .BLOCK_ERASE blk mem = (.const_none, mem)))
    ∧ psram_msc_GetCapacity = (16384, 512)
    ∧ (∀ arg mem,
        psram_ioctl .BLOCK_COUNT_CMD arg mem = (.smallInt 16384, mem)) := by
  refine ⟨?_, ?_, rfl, fun arg mem => rfl⟩
  · intro blk num_blk h1 hsome
    unfold block_to_ptr at hsome
    by_cases ha : blk ≥ BLOCK_COUNT
    · rw [if_pos ha] at hsome
      simp at hsome
    · rw [if_neg ha] at hsome
      by_cases hb : blk + num_blk * BLOCK_SIZE ≥ BLOCK_COUNT
      · rw [if_pos hb] at hsome
        simp at hsome
      · unfold BLOCK_SIZE BLOCK_COUNT at hb ⊢
        omega
  · intro blk hblk
    have hn : block_to_ptr blk 1 = none := by
      unfold block_to_ptr BLOCK_SIZE BLOCK_COUNT
      split_ifs with ha hb
      · rfl
      · rfl
      · omega
    refine ⟨hn, ?_, ?_, ?_⟩
    · intro lun mem
      unfold psram_msc_Read
      split_ifs with h1
      · rfl
      · rw [hn]
    · intro lun buf mem
      unfold psram_msc_Write
      split_ifs with h1
      · rfl
      · rw [hn]
    · intro mem
      unfold psram_ioctl
      rw [hn]

/-- C3 witness: the request (0, 32) is rejected while (0, 31) is accepted
(31 is the largest transferable count), and block 15872 is unreachable by
single-block read/write/erase. -/
theorem C3_witness :
    (0 + 31 * BLOCK_SIZE < BLOCK_COUNT ∧ 31 ≤ 31)
    ∧ block_to_ptr 15872 1 = none
    ∧ psram_msc_Read 0 15872 1 (fun _ => 0) = none
    ∧ psram_msc_Write 0 (fun _ => 0) 15872 1 (fun _ => 0) =
        (-1, fun _ => 0)
    ∧ psram_ioctl .BLOCK_ERASE 15872 (fun _ => 0) =
        (.const_none, fun _ => 0) :=
  ⟨C3_transfer_cap_and_unreachable_tail.1 0 31 (by decide) (by decide),
   (C3_transfer_cap_and_unreachable_tail.2.1 15872 (by decide)).1,
   (C3_transfer_cap_and_unreachable_tail.2.1 15872 (by decide)).2.1 0
     (fun _ => 0),
   (C3_transfer_cap_and_unreachable_tail.2.1 15872 (by decide)).2.2.1 0
     (fun _ => 0) (fun _ => 0),
   (C3_transfer_cap_and_unreachable_tail.2.1 15872 (by decide)).2.2.2
     (fun _ => 0)⟩

/-- C4 counterexample: the claim says every logical-unit-state operation
invoked with a unit index other than 0 returns an unsupported-unit error,
in particular init.  On the code, `psram_msc_Init 1` returns the success
code 0 (not a negative error), and prevent-removal acknowledges any unit
index with 0 as well. -/
theorem C4_counterexample :
    (psram_msc_Init 1 0).1 = 0 ∧ ¬ ((psram_msc_Init 1 0).1 < 0)
    ∧ psram_msc_PreventAllowMediumRemoval 3 1 = 0 := by
  decide

/-- C4 amended: no handler invoked with a unit index other than 0 ever
mutates the shared flags word, and is_ready, is_write_protected,
start_stop, read and write do report the unsupported-unit error (-1) for
such indices; but init returns success (0) without mutating anything, and
prevent-removal acknowledges (0) every unit index unconditionally. -/
theorem C4_amended_unsupported_lun (lun : Nat) (h : lun ≠ 0) :
    (∀ flags, psram_msc_Init lun flags = (0, flags))
    ∧ (∀ flags, psram_msc_IsReady lun flags = -1)
    ∧ (∀ flags, psram_msc_IsWriteProtected lun flags = -1)
    ∧ (∀ flags b, psram_msc_StartStopUnit lun b flags = (-1, flags))
    ∧ (∀ param, psram_msc_PreventAllowMediumRemoval lun param = 0)
    ∧ (∀ buf blk n mem, psram_msc_Write lun buf blk n mem = (-1, mem))
    ∧ (∀ blk n mem, psram_msc_Read lun blk n mem = none) := by
  have h1 : lun ≥ psram_msc_lu_num := by
    unfold psram_msc_lu_num
    omega
  refine ⟨?_, ?_, ?_, ?_, fun _ => rfl, ?_, ?_⟩
  · intro flags
    unfold psram_msc_Init
    rw [if_pos h]
  · intro flags
    unfold psram_msc_IsReady
    rw [if_pos h1]
  · intro flags
    unfold psram_msc_IsWriteProtected
    rw [if_pos h1]
  · intro flags b
    unfold psram_msc_StartStopUnit
    rw [if_pos h1]
  · intro buf blk n mem
    unfold psram_msc_Write
    rw [if_pos h1]
  · intro blk n mem
    unfold psram_msc_Read
    rw [if_pos h1]

/-- C4 amended witness: unit index 1 with flags word 7. -/
theorem C4_amended_witness :
    psram_msc_Init 1 7 = (0, 7)
    ∧ psram_msc_IsReady 1 7 = -1
    ∧ psram_msc_StartStopUnit 1 true 7 = (-1, 7) :=
  ⟨(C4_amended_unsupported_lun 1 (by decide)).1 7,
   (C4_amended_unsupported_lun 1 (by decide)).2.1 7,
   (C4_amended_unsupported_lun 1 (by decide)).2.2.2.1 7 true⟩

/-- C5: from the initial (zero) flags word, is_ready(0) reports not-ready
(-1); it still reports not-ready after any trace of handler invocations
containing neither init(0) nor set_started(0, true); immediately after
init(0) or set_started(0, true) it reports ready (0); after
set_started(0, false) followed by any trace without a unit-0 start event
it reports not-ready again; and an is_ready invocation itself never
changes the flags word. -/
theorem C5_is_ready_lifecycle :
    psram_msc_IsReady 0 0 = -1
    ∧ (∀ tr, (∀ e ∈ tr, startsUnit0 e = false) →
        psram_msc_IsReady 0 (mscRun 0 tr) = -1)
    ∧ (∀ f, psram_msc_IsReady 0 (mscStep f (.evInit 0)) = 0)
    ∧ (∀ f, psram_msc_IsReady 0 (mscStep f (.evStartStop 0 true)) = 0)
    ∧ (∀ f tr, (∀ e ∈ tr, startsUnit0 e = false) →
        psram_msc_IsReady 0
          (mscRun (mscStep f (.evStartStop 0 false)) tr) = -1)
    ∧ (∀ f lun, mscStep f (.evIsReady lun) = f) := by
  refine ⟨by decide, ?_, ?_, ?_, ?_, fun f lun => rfl⟩
  · intro tr htr
    rw [isReady_zero_char, if_neg]
    rw [run_preserves_stopped 0 tr htr (by decide)]
    decide
  · intro f
    show psram_msc_IsReady 0 (psram_msc_Init 0 f).2 = 0
    unfold psram_msc_Init
    rw [if_neg (by decide : ¬ ((0 : Nat) ≠ 0))]
    rw [isReady_zero_char, clr_readonly_mod_two, set_started_mod_two]
    rfl
  · intro f
    show psram_msc_IsReady 0 (psram_msc_StartStopUnit 0 true f).2 = 0
    unfold psram_msc_StartStopUnit
    rw [if_neg (by decide : ¬ ((0 : Nat) ≥ psram_msc_lu_num)),
      if_pos rfl]
    rw [isReady_zero_char, set_started_mod_two]
    rfl
  · intro f tr htr
    rw [isReady_zero_char, if_neg]
    have hstep : (mscStep f (.evStartStop 0 false)) % 2 = 0 := by
      show (psram_msc_StartStopUnit 0 false f).2 % 2 = 0
      unfold psram_msc_StartStopUnit
      rw [if_neg (by decide : ¬ ((0 : Nat) ≥ psram_msc_lu_num))]
      exact clr_started_mod_two f
    rw [run_preserves_stopped _ tr htr hstep]
    decide

/-- C5 witness: a concrete trace of queries leaves unit 0 not-ready;
init from flags 5 makes it ready; a stop followed by a query leaves it
not-ready. -/
theorem C5_witness :
    psram_msc_IsReady 0
        (mscRun 0 [.evPreventAllow 0 1, .evIsWriteProtected 0]) = -1
    ∧ psram_msc_IsReady 0 (mscStep 5 (.evInit 0)) = 0
    ∧ psram_msc_IsReady 0
        (mscRun (mscStep 5 (.evStartStop 0 false)) [.evIsReady 0]) = -1 :=
  ⟨C5_is_ready_lifecycle.2.1 [.evPreventAllow 0 1, .evIsWriteProtected 0]
     (by decide),
   C5_is_ready_lifecycle.2.2.1 5,
   C5_is_ready_lifecycle.2.2.2.2.1 5 [.evIsReady 0] (by decide)⟩

/-- C6 counterexample: the claim says a failed filesystem write makes the
whole wipe_and_format fail.  On the code both ident-file f_write results
are failures (1 = FR_DISK_ERR) while f_mkfs succeeded, yet the routine
completes without raising: its result is ignored-write success. -/
theorem C6_counterexample :
    (⟨0, 0, 0, 1, 0, 0, 1, 0⟩ : FsOps).write1_res ≠ FR_OK
    ∧ (⟨0, 0, 0, 1, 0, 0, 1, 0⟩ : FsOps).write2_res ≠ FR_OK
    ∧ (psram_wipe_and_setup (fun _ => 0) ⟨0, 0, 0, 1, 0, 0, 1, 0⟩).ok
        = true :=
  ⟨by decide, by decide, rfl⟩

/-- C6 amended: when f_mkfs succeeds, wipe_and_format writes the first 12
hex characters of the hardware-derived ident as the content of both
`ckcc-<id>.txt` and `serial.txt` and reports success regardless of the
open/write/close results (which the code discards); when f_mkfs fails the
whole operation fails before any file is written. -/
theorem C6_amended_wipe (id : Nat → Nat) (fs : FsOps)
    (hmk : fs.mkfs_res = FR_OK) :
    psram_wipe_and_setup id fs =
      ⟨true, [(identFileName id, (serialChars id).take 12),
              ("serial.txt".data, (serialChars id).take 12)]⟩
    ∧ (∀ fs2 : FsOps, fs2.mkfs_res ≠ FR_OK →
        psram_wipe_and_setup id fs2 = ⟨false, []⟩) := by
  constructor
  · unfold psram_wipe_and_setup
    rw [if_neg (fun hc => hc hmk), identContent_eq_take]
  · intro fs2 h2
    unfold psram_wipe_and_setup
    rw [if_pos h2]

/-- C6 amended witness: a concrete hardware ID and a filesystem whose
ident-file writes all fail still yields success with both files written;
a failing mkfs yields failure. -/
theorem C6_amended_witness :
    psram_wipe_and_setup (fun i => i) ⟨0, 1, 1, 1, 1, 1, 1, 1⟩ =
      ⟨true, [(identFileName (fun i => i),
               (serialChars (fun i => i)).take 12),
              ("serial.txt".data, (serialChars (fun i => i)).take 12)]⟩
    ∧ psram_wipe_and_setup (fun i => i) ⟨1, 0, 0, 0, 0, 0, 0, 0⟩ =
        ⟨false, []⟩ :=
  ⟨(C6_amended_wipe (fun i => i) ⟨0, 1, 1, 1, 1, 1, 1, 1⟩ rfl).1,
   (C6_amended_wipe (fun i => i) ⟨0, 1, 1, 1, 1, 1, 1, 1⟩ rfl).2
     ⟨1, 0, 0, 0, 0, 0, 0, 0⟩ (by decide)⟩

/-- C7: whenever mount, open and the link-map lseek succeed,
psram_mmap_file returns `mp_const_none` no matter what the link map
contains — the PhysicalRange sequence is computed (and printed) by the
loop but never returned to the caller, contradicting the claim (and the
function's own comment, lines 483-485).  The loop's values themselves do
follow the claim: it computes `(slots_used - 1) / 2` pairs, and on the
sample single-run link map (run 1, start cluster 2) the emitted sector is
`database + csize * (2 - 2) = database`. -/
theorem C7_mmap_discards_ranges :
    (∀ n_fatent csize database mapping,
        psram_mmap_file 0 0 0 n_fatent csize database mapping =
          Except.ok MpObj.const_none)
    ∧ (∀ n_fatent csize database mapping,
        (mmapRanges n_fatent csize database mapping).length =
          (mapping 0 - 1) / 2)
    ∧ mmapExample 0 = 3
    ∧ mmapRanges 16384 1 100 mmapExample = [(1, 100)] := by
  refine ⟨fun _ _ _ _ => rfl, ?_, rfl, by decide⟩
  intro n_fatent csize database mapping
  unfold mmapRanges
  rw [List.length_map, List.length_range]

/-- C8: erase through the ioctl on a block index accepted by the
validator returns success (0) and sets all 512 bytes of that block to
0xFF, leaving every other byte unchanged; on a rejected block index it
returns `mp_const_none` (a neutral non-error result, the same value as
for unrecognized operations) and leaves the memory untouched. -/
theorem C8_erase_block (blk : Nat) (mem : Mem) :
    (∀ off, block_to_ptr blk 1 = some off →
        (psram_ioctl .BLOCK_ERASE blk mem).1 = .smallInt 0
        ∧ (∀ i, off ≤ i → i < off + BLOCK_SIZE →
            (psram_ioctl .BLOCK_ERASE blk mem).2 i = 0xFF)
        ∧ (∀ i, i < off ∨ off + BLOCK_SIZE ≤ i →
            (psram_ioctl .BLOCK_ERASE blk mem).2 i = mem i))
    ∧ (block_to_ptr blk 1 = none →
        psram_ioctl .BLOCK_ERASE blk mem = (.const_none, mem)) := by
  constructor
  · intro off h
    unfold psram_ioctl
    rw [h]
    refine ⟨rfl, ?_, ?_⟩
    · intro i h1 h2
      show (if off ≤ i ∧ i < off + BLOCK_SIZE then 0xFF else mem i) = 0xFF
      rw [if_pos ⟨h1, h2⟩]
    · intro i h1
      show (if off ≤ i ∧ i < off + BLOCK_SIZE then 0xFF else mem i) = mem i
      rw [if_neg (by omega)]
  · intro h
    unfold psram_ioctl
    rw [h]

/-- C8 witness: erasing block 2 succeeds, sets byte 1024 (the first byte
of block 2) to 0xFF and leaves byte 0 at its old value 7; erasing block
16383 (rejected: 16383 + 512 ≥ 16384) returns mp_const_none and leaves
the memory untouched. -/
theorem C8_witness :
    (psram_ioctl .BLOCK_ERASE 2 (fun _ => 7)).1 = .smallInt 0
    ∧ (psram_ioctl .BLOCK_ERASE 2 (fun _ => 7)).2 1024 = 0xFF
    ∧ (psram_ioctl .BLOCK_ERASE 2 (fun _ => 7)).2 0 = 7
    ∧ psram_ioctl .BLOCK_ERASE 16383 (fun _ => 7) =
        (.const_none, fun _ => 7) :=
  ⟨((C8_erase_block 2 (fun _ => 7)).1 1024 (by decide)).1,
   ((C8_erase_block 2 (fun _ => 7)).1 1024 (by decide)).2.1 1024
     (by decide) (by decide),
   ((C8_erase_block 2 (fun _ => 7)).1 1024 (by decide)).2.2 0
     (Or.inl (by decide)),
   (C8_erase_block 16383 (fun _ => 7)).2 (by decide)⟩

/-- C9: the standard-inquiry path computes the allocation length from CDB
bytes 3 and 4 as `params[3] << 8 | params[4]` but stores it in a
`uint8_t`, so the requested allocation length 256 (params[3] = 1,
params[4] = 0) truncates to 0 and the handler returns 0 bytes, while the
claim requires the 36-byte standard payload truncated to 256, i.e. all
36 bytes. -/
theorem C9_alloc_len_truncated :
    psram_msc_Inquiry 0 inquiryParams256 = Except.ok []
    ∧ ((inquiryParams256 3 <<< 8) ||| inquiryParams256 4) = 256
    ∧ psram_msc_inquiry_data.length = 36
    ∧ psram_msc_inquiry_data.take
        (min STANDARD_INQUIRY_DATA_LEN 256) = psram_msc_inquiry_data := by
  refine ⟨rfl, by decide, by decide, by decide⟩

/-- C10: psram_readblocks and psram_writeblocks raise ValueError, without
touching the region, whenever the buffer length is zero or not an exact
multiple of BLOCK_SIZE. -/
theorem C10_bad_buffer_length (block_num buf_len : Nat) (buf : Nat → Nat)
    (mem : Mem) (h : buf_len = 0 ∨ buf_len % BLOCK_SIZE ≠ 0) :
    psram_readblocks block_num buf_len mem = none
    ∧ psram_writeblocks block_num buf_len buf mem = none := by
  have hguard : (buf_len / BLOCK_SIZE) % 65536 < 1 ∨
      ((buf_len / BLOCK_SIZE) % 65536) * BLOCK_SIZE ≠ buf_len := by
    rcases h with h | h
    · left
      subst h
      decide
    · right
      intro hc
      apply h
      rw [← hc]
      exact Nat.mul_mod_left _ _
  constructor
  · unfold psram_readblocks
    by_cases h1 : (buf_len / BLOCK_SIZE) % 65536 < 1
    · rw [if_pos h1]
    · rw [if_neg h1,
        if_pos (by rcases hguard with hg | hg; exact absurd hg h1; exact hg)]
  · unfold psram_writeblocks
    by_cases h1 : (buf_len / BLOCK_SIZE) % 65536 < 1
    · rw [if_pos h1]
    · rw [if_neg h1,
        if_pos (by rcases hguard with hg | hg; exact absurd hg h1; exact hg)]

/-- C10 witness: reading or writing with a 1000-byte buffer (not a
multiple of 512) fails. -/
theorem C10_witness :
    psram_readblocks 0 1000 (fun _ => 0) = none
    ∧ psram_writeblocks 0 1000 (fun _ => 0) (fun _ => 0) = none :=
  C10_bad_buffer_length 0 1000 (fun _ => 0) (fun _ => 0)
    (Or.inr (by decide))

end Psramdisk
